import Mathlib

/-
Verification development for the financial planner state-management
orchestrator (src/context/FinancialProvider.tsx).

The provider file is the only source file available; the reducer
(context/reducer.ts), the action builders (context/actions.ts), the storage
module (context/storage.ts) and the entity types (types.ts) are external
collaborators.  Where their behaviour matters it is modelled from the
specification (doc comments say so explicitly); everything else is a direct
shallow embedding of FinancialProvider.tsx.

Conventions of the embedding:
- ISO-8601 timestamps are modelled as epoch milliseconds (Nat); the ISO
  rendering is an order isomorphism on the values the code produces, so
  timestamp comparison claims transfer verbatim.  The two clock reads in one
  object literal are modelled as a single instant, as the spec does.
- JavaScript object spread over entity records is modelled with association
  lists: the update input's key/value pairs shadow the existing entity's
  (lookup over list append).
- Math.random().toString(36).substr(2, 9) is modelled as an arbitrary string
  parameter handed to the operation (the random suffix), so theorems hold for
  every value the generator can produce.
- Each async convenience function is modelled as a function producing the list
  of dispatched actions in dispatch order, plus a Bool recording whether the
  operation re-raised (rejected).  The resulting state is the left fold of the
  reducer over that list.
-/

namespace Planner

/-- Error-category keys of the error state (context/types.ts ErrorState). -/
inductive ErrorCategory where
  | incomeError
  | expenseError
  | goalError
  | forecastError
  | generalError
deriving DecidableEq, Repr

/-- Modelled from the spec: entity types (Income/Expense/Goal) live in
types.ts, which is not under src/.  Per the spec data model, an entity has an
identifier, arbitrary caller-supplied domain fields (modelled as an
association list, matching JS object spread), and createdAt/updatedAt
timestamps. -/
structure Entity where
  id : String
  fields : List (String × String)
  createdAt : Nat
  updatedAt : Nat
deriving DecidableEq, Repr

/-- Modelled from the spec: the Plan aggregate (types.ts, not under src/):
identifier with sentinel "default-plan", the three ordered entity sequences,
current balance, and forecast configuration (kept as an association list; no
claim depends on its structure). -/
structure Plan where
  id : String
  income : List Entity
  expenses : List Entity
  goals : List Entity
  currentBalance : Int
  forecastConfig : List (String × String)
deriving DecidableEq, Repr

/-- Loading flags of the state (per-domain booleans, spec data model). -/
structure LoadingState where
  isLoading : Bool
  isSaving : Bool
  isLoadingIncome : Bool
  isLoadingExpenses : Bool
  isLoadingGoals : Bool
  isLoadingForecast : Bool
deriving DecidableEq, Repr

/-- Error state: optional message per category (spec data model). -/
structure ErrorState where
  incomeError : Option String
  expenseError : Option String
  goalError : Option String
  forecastError : Option String
  generalError : Option String
deriving DecidableEq, Repr

/-- The orchestrator's state container (context/types.ts FinancialState,
modelled from the spec). -/
structure FinancialState where
  userPlan : Plan
  loading : LoadingState
  error : ErrorState
  hasUnsavedChanges : Bool
deriving DecidableEq, Repr

/-- Action catalog produced by the provider and consumed by the reducer
(context/actions.ts, modelled from the spec's action catalog in section 6). -/
inductive Action where
  | setLoading (b : Bool)
  | setSaving (b : Bool)
  | setLoadingIncome (b : Bool)
  | setLoadingExpenses (b : Bool)
  | setLoadingGoals (b : Bool)
  | setLoadingForecast (b : Bool)
  | clearError (cat : Option ErrorCategory)
  | setIncomeError (msg : String)
  | setExpenseError (msg : String)
  | setGoalError (msg : String)
  | setForecastError (msg : String)
  | setGeneralError (msg : String)
  | addIncome (e : Entity)
  | updateIncome (e : Entity)
  | deleteIncome (i : String)
  | addExpense (e : Entity)
  | updateExpense (e : Entity)
  | deleteExpense (i : String)
  | addGoal (e : Entity)
  | updateGoal (e : Entity)
  | deleteGoal (i : String)
  | setUserPlan (p : Plan)
  | updateCurrentBalance (b : Int)
  | updateForecastConfig (cfg : List (String × String))
  | regenerateForecast
  | loadSuccess (p : Plan)
  | loadError (msg : String)
  | saveSuccess
  | saveError (msg : String)
  | resetState
deriving DecidableEq, Repr

/-- Replace every entity carrying the update's id by the merged entity
(reducer update-entity transition, modelled from the spec). -/
def replaceById (l : List Entity) (u : Entity) : List Entity :=
  l.map (fun e => if e.id = u.id then u else e)

/-- Remove every entity carrying the given id (reducer delete-entity
transition, modelled from the spec: removal by id). -/
def removeById (l : List Entity) (i : String) : List Entity :=
  l.filter (fun e => e.id != i)

/-- Clear one error category, or all when none is given (spec: cleared
per-category or, when no category given, entirely). -/
def clearErrorState (err : ErrorState) : Option ErrorCategory → ErrorState
  | some ErrorCategory.incomeError => { err with incomeError := none }
  | some ErrorCategory.expenseError => { err with expenseError := none }
  | some ErrorCategory.goalError => { err with goalError := none }
  | some ErrorCategory.forecastError => { err with forecastError := none }
  | some ErrorCategory.generalError => { err with generalError := none }
  | none => ⟨none, none, none, none, none⟩

/-- The pristine fresh state (context/initialState.ts createFreshInitialState,
modelled from the spec: sentinel id "default-plan", empty sequences, flags
down, no errors, no unsaved changes). -/
def freshInitialState : FinancialState :=
  { userPlan := { id := "default-plan", income := [], expenses := [], goals := [],
                  currentBalance := 0, forecastConfig := [] }
    loading := ⟨false, false, false, false, false, false⟩
    error := ⟨none, none, none, none, none⟩
    hasUnsavedChanges := false }

/-- Modelled from the spec: the reducer (context/reducer.ts) is not under
src/.  Per the spec it is a total pure function that never throws; entity
add/update/delete transform the matching ordered sequence; every mutating
action sets hasUnsavedChanges; load-success replaces the plan wholesale and
marks load successful; save-success marks save successful (clears the
unsaved-changes flag and the saving flag); load-error and save-error record
into generalError — per the spec's known inconsistency, save-error does not
reset the saving flag. -/
def applyAction (s : FinancialState) : Action → FinancialState
  | Action.setLoading b => { s with loading := { s.loading with isLoading := b } }
  | Action.setSaving b => { s with loading := { s.loading with isSaving := b } }
  | Action.setLoadingIncome b => { s with loading := { s.loading with isLoadingIncome := b } }
  | Action.setLoadingExpenses b => { s with loading := { s.loading with isLoadingExpenses := b } }
  | Action.setLoadingGoals b => { s with loading := { s.loading with isLoadingGoals := b } }
  | Action.setLoadingForecast b => { s with loading := { s.loading with isLoadingForecast := b } }
  | Action.clearError cat => { s with error := clearErrorState s.error cat }
  | Action.setIncomeError m => { s with error := { s.error with incomeError := some m } }
  | Action.setExpenseError m => { s with error := { s.error with expenseError := some m } }
  | Action.setGoalError m => { s with error := { s.error with goalError := some m } }
  | Action.setForecastError m => { s with error := { s.error with forecastError := some m } }
  | Action.setGeneralError m => { s with error := { s.error with generalError := some m } }
  | Action.addIncome e =>
      { s with userPlan := { s.userPlan with income := s.userPlan.income ++ [e] }
               hasUnsavedChanges := true }
  | Action.updateIncome e =>
      { s with userPlan := { s.userPlan with income := replaceById s.userPlan.income e }
               hasUnsavedChanges := true }
  | Action.deleteIncome i =>
      { s with userPlan := { s.userPlan with income := removeById s.userPlan.income i }
               hasUnsavedChanges := true }
  | Action.addExpense e =>
      { s with userPlan := { s.userPlan with expenses := s.userPlan.expenses ++ [e] }
               hasUnsavedChanges := true }
  | Action.updateExpense e =>
      { s with userPlan := { s.userPlan with expenses := replaceById s.userPlan.expenses e }
               hasUnsavedChanges := true }
  | Action.deleteExpense i =>
      { s with userPlan := { s.userPlan with expenses := removeById s.userPlan.expenses i }
               hasUnsavedChanges := true }
  | Action.addGoal e =>
      { s with userPlan := { s.userPlan with goals := s.userPlan.goals ++ [e] }
               hasUnsavedChanges := true }
  | Action.updateGoal e =>
      { s with userPlan := { s.userPlan with goals := replaceById s.userPlan.goals e }
               hasUnsavedChanges := true }
  | Action.deleteGoal i =>
      { s with userPlan := { s.userPlan with goals := removeById s.userPlan.goals i }
               hasUnsavedChanges := true }
  | Action.setUserPlan p => { s with userPlan := p }
  | Action.updateCurrentBalance b =>
      { s with userPlan := { s.userPlan with currentBalance := b }
               hasUnsavedChanges := true }
  | Action.updateForecastConfig cfg =>
      { s with userPlan := { s.userPlan with forecastConfig := cfg ++ s.userPlan.forecastConfig }
               hasUnsavedChanges := true }
  | Action.regenerateForecast => s
  | Action.loadSuccess p =>
      { s with userPlan := p
               loading := { s.loading with isLoading := false }
               hasUnsavedChanges := false }
  | Action.loadError m =>
      { s with error := { s.error with generalError := some m }
               loading := { s.loading with isLoading := false } }
  | Action.saveSuccess =>
      { s with loading := { s.loading with isSaving := false }
               hasUnsavedChanges := false }
  | Action.saveError m =>
      { s with error := { s.error with generalError := some m } }
  | Action.resetState => freshInitialState

/-- Apply a list of dispatched actions in dispatch order. -/
def applyActions (s : FinancialState) (l : List Action) : FinancialState :=
  l.foldl applyAction s

/-- Modelled from the spec: create inputs (types.ts, not under src/) carry the
caller's domain fields and no identifier or timestamps. -/
structure CreateInput where
  fields : List (String × String)
deriving DecidableEq, Repr

/-- Modelled from the spec: update inputs (types.ts, not under src/) carry the
target identifier plus a partial set of domain fields; timestamps are not
caller-suppliable. -/
structure UpdateInput where
  id : String
  fields : List (String × String)
deriving DecidableEq, Repr

/-- FinancialProvider.tsx generateId: `${pfx}-${Date.now()}-${rand}` where
rand stands for Math.random().toString(36).substr(2, 9), passed in as a
parameter of the operation. -/
def generateId (pfx : String) (nowMs : Nat) (rand : String) : String :=
  pfx ++ "-" ++ toString nowMs ++ "-" ++ rand

/-- Character admissible in the base-36 rendering of Math.random(): a decimal
digit or a lowercase letter (code points 97 to 122). -/
def isBase36 (c : Char) : Bool :=
  c.isDigit || (decide (97 ≤ c.toNat) && decide (c.toNat ≤ 122))

/-- Entity synthesized by the add operations: generated id, spread of the
caller's fields, createdAt and updatedAt stamped now
(FinancialProvider.tsx lines 179-184, 257-262, 338-343). -/
def newEntity (pfx : String) (inp : CreateInput) (nowMs : Nat) (rand : String) : Entity :=
  { id := generateId pfx nowMs rand
    fields := inp.fields
    createdAt := nowMs
    updatedAt := nowMs }

/-- Merged entity built by the update operations: spread of the caller's
fields over the existing entity (input keys shadow), updatedAt restamped
(FinancialProvider.tsx lines 212-216, 290-294, 371-375). -/
def mergeEntity (existing : Entity) (inp : UpdateInput) (nowMs : Nat) : Entity :=
  { id := inp.id
    fields := inp.fields ++ existing.fields
    createdAt := existing.createdAt
    updatedAt := nowMs }

/-- Lookup of a domain field on an entity (JS property access). -/
def getField (e : Entity) (k : String) : Option String :=
  e.fields.lookup k

/-- Dispatch trace of addIncome (FinancialProvider.tsx lines 173-197) plus
the re-raise flag; the catch branch is unreachable because dispatch never
throws, so the trace is the try branch followed by the finally dispatch. -/
def addIncomeTrace (inp : CreateInput) (nowMs : Nat) (rand : String) :
    List Action × Bool :=
  ([Action.setLoadingIncome true, Action.clearError (some ErrorCategory.incomeError),
    Action.addIncome (newEntity "income" inp nowMs rand),
    Action.setLoadingIncome false], false)

/-- Dispatch trace of updateIncome (FinancialProvider.tsx lines 199-229): the
loading and clear-error dispatches, then either the NotFound throw (caught,
error recorded, re-thrown) or the update dispatch; the finally dispatch runs
on both paths. -/
def updateIncomeTrace (s : FinancialState) (inp : UpdateInput) (nowMs : Nat) :
    List Action × Bool :=
  match s.userPlan.income.find? (fun inc => inc.id == inp.id) with
  | none =>
      ([Action.setLoadingIncome true, Action.clearError (some ErrorCategory.incomeError),
        Action.setIncomeError "Income not found",
        Action.setLoadingIncome false], true)
  | some existing =>
      ([Action.setLoadingIncome true, Action.clearError (some ErrorCategory.incomeError),
        Action.updateIncome (mergeEntity existing inp nowMs),
        Action.setLoadingIncome false], false)

/-- Dispatch trace of deleteIncome (FinancialProvider.tsx lines 231-245):
removal dispatched unconditionally, no existence check. -/
def deleteIncomeTrace (i : String) : List Action × Bool :=
  ([Action.setLoadingIncome true, Action.clearError (some ErrorCategory.incomeError),
    Action.deleteIncome i,
    Action.setLoadingIncome false], false)

/-- Dispatch trace of addExpense (FinancialProvider.tsx lines 251-275). -/
def addExpenseTrace (inp : CreateInput) (nowMs : Nat) (rand : String) :
    List Action × Bool :=
  ([Action.setLoadingExpenses true, Action.clearError (some ErrorCategory.expenseError),
    Action.addExpense (newEntity "expense" inp nowMs rand),
    Action.setLoadingExpenses false], false)

/-- Dispatch trace of updateExpense (FinancialProvider.tsx lines 277-307). -/
def updateExpenseTrace (s : FinancialState) (inp : UpdateInput) (nowMs : Nat) :
    List Action × Bool :=
  match s.userPlan.expenses.find? (fun exp => exp.id == inp.id) with
  | none =>
      ([Action.setLoadingExpenses true, Action.clearError (some ErrorCategory.expenseError),
        Action.setExpenseError "Expense not found",
        Action.setLoadingExpenses false], true)
  | some existing =>
      ([Action.setLoadingExpenses true, Action.clearError (some ErrorCategory.expenseError),
        Action.updateExpense (mergeEntity existing inp nowMs),
        Action.setLoadingExpenses false], false)

/-- Dispatch trace of deleteExpense (FinancialProvider.tsx lines 309-326). -/
def deleteExpenseTrace (i : String) : List Action × Bool :=
  ([Action.setLoadingExpenses true, Action.clearError (some ErrorCategory.expenseError),
    Action.deleteExpense i,
    Action.setLoadingExpenses false], false)

/-- Dispatch trace of addGoal (FinancialProvider.tsx lines 332-356). -/
def addGoalTrace (inp : CreateInput) (nowMs : Nat) (rand : String) :
    List Action × Bool :=
  ([Action.setLoadingGoals true, Action.clearError (some ErrorCategory.goalError),
    Action.addGoal (newEntity "goal" inp nowMs rand),
    Action.setLoadingGoals false], false)

/-- Dispatch trace of updateGoal (FinancialProvider.tsx lines 358-388). -/
def updateGoalTrace (s : FinancialState) (inp : UpdateInput) (nowMs : Nat) :
    List Action × Bool :=
  match s.userPlan.goals.find? (fun goal => goal.id == inp.id) with
  | none =>
      ([Action.setLoadingGoals true, Action.clearError (some ErrorCategory.goalError),
        Action.setGoalError "Goal not found",
        Action.setLoadingGoals false], true)
  | some existing =>
      ([Action.setLoadingGoals true, Action.clearError (some ErrorCategory.goalError),
        Action.updateGoal (mergeEntity existing inp nowMs),
        Action.setLoadingGoals false], false)

/-- Dispatch trace of deleteGoal (FinancialProvider.tsx lines 390-404). -/
def deleteGoalTrace (i : String) : List Action × Bool :=
  ([Action.setLoadingGoals true, Action.clearError (some ErrorCategory.goalError),
    Action.deleteGoal i,
    Action.setLoadingGoals false], false)

/-- Dispatch trace of saveUserPlan (FinancialProvider.tsx lines 468-489): the
Storage Adapter outcome is a parameter (ok with the returned plan, or error
with the recorded message).  There is no finally block: on failure only the
save-error dispatch follows and the failure is re-raised. -/
def saveUserPlanTrace (s : FinancialState) (res : Except String Plan) :
    List Action × Bool :=
  match res with
  | Except.error msg =>
      ([Action.setSaving true, Action.clearError (some ErrorCategory.generalError),
        Action.saveError msg], true)
  | Except.ok saved =>
      ([Action.setSaving true, Action.clearError (some ErrorCategory.generalError)] ++
       (if saved.id ≠ s.userPlan.id then [Action.setUserPlan saved] else []) ++
       [Action.saveSuccess], false)

/-- Dispatch trace of the manual loadUserPlan (FinancialProvider.tsx lines
491-511): on failure, dispatches load-error and re-raises. -/
def loadUserPlanTrace (res : Except String (Option Plan)) :
    List Action × Bool :=
  match res with
  | Except.ok (some p) =>
      ([Action.setLoading true, Action.clearError (some ErrorCategory.generalError),
        Action.loadSuccess p], false)
  | Except.ok none =>
      ([Action.setLoading true, Action.clearError (some ErrorCategory.generalError),
        Action.setLoading false], false)
  | Except.error msg =>
      ([Action.setLoading true, Action.clearError (some ErrorCategory.generalError),
        Action.loadError msg], true)

/-- Guard of the auto-load effect (FinancialProvider.tsx lines 87-92): the
Plan is still the default pristine state. -/
def pristineB (s : FinancialState) : Bool :=
  (s.userPlan.id == "default-plan") &&
  (s.userPlan.income.length == 0) &&
  (s.userPlan.expenses.length == 0) &&
  (s.userPlan.goals.length == 0)

/-- Dispatch trace of the auto-load effect at mount (FinancialProvider.tsx
lines 85-116): runs only on a pristine state; its catch branch dispatches
load-error and swallows the failure (never re-raises). -/
def autoLoadTrace (s : FinancialState) (res : Except String (Option Plan)) :
    List Action × Bool :=
  if pristineB s then
    match res with
    | Except.ok (some p) =>
        ([Action.setLoading true, Action.clearError (some ErrorCategory.generalError),
          Action.loadSuccess p], false)
    | Except.ok none =>
        ([Action.setLoading true, Action.clearError (some ErrorCategory.generalError),
          Action.setLoading false], false)
    | Except.error msg =>
        ([Action.setLoading true, Action.clearError (some ErrorCategory.generalError),
          Action.loadError msg], false)
  else ([], false)

/-- hasRealData of the auto-save effect (FinancialProvider.tsx lines 124-128). -/
def hasRealData (s : FinancialState) : Bool :=
  (s.userPlan.id != "default-plan") ||
  decide (s.userPlan.income.length > 0) ||
  decide (s.userPlan.expenses.length > 0) ||
  decide (s.userPlan.goals.length > 0)

/-- Full eligibility guard of the auto-save effect (FinancialProvider.tsx
lines 130-135): real data, not loading, not saving, unsaved changes. -/
def shouldAutoSave (s : FinancialState) : Bool :=
  hasRealData s && !s.loading.isLoading && !s.loading.isSaving && s.hasUnsavedChanges

/-- Debounced auto-save semantics (FinancialProvider.tsx lines 119-162).  The
input is the sequence of effect re-evaluations: at each state change the
previous run's cleanup cancels the pending timer; when the new state is
eligible a fresh 1000ms timer is scheduled.  A scheduled timer fires unless
the next re-evaluation happens strictly before 1000ms elapse.  The result is
the list of (scheduling time, state) pairs whose save actually fires. -/
def autoSaveFired : List (Nat × FinancialState) → List (Nat × FinancialState)
  | [] => []
  | (t, s) :: rest =>
      (if shouldAutoSave s then
        match rest with
        | [] => [(t, s)]
        | (t2, _) :: _ => if t2 < t + 1000 then [] else [(t, s)]
      else []) ++ autoSaveFired rest

/-- Consecutive re-evaluations each happen within 1000ms of the previous. -/
def withinWindowB : List (Nat × FinancialState) → Bool
  | [] => true
  | [_] => true
  | (t1, _) :: (t2, s2) :: rest =>
      decide (t2 < t1 + 1000) && withinWindowB ((t2, s2) :: rest)

/-- State after running addIncome from state s. -/
def runAddIncome (s : FinancialState) (inp : CreateInput) (nowMs : Nat) (rand : String) :
    FinancialState :=
  applyActions s (addIncomeTrace inp nowMs rand).1

/-- State after running updateIncome from state s. -/
def runUpdateIncome (s : FinancialState) (inp : UpdateInput) (nowMs : Nat) : FinancialState :=
  applyActions s (updateIncomeTrace s inp nowMs).1

/-- State after running deleteIncome from state s. -/
def runDeleteIncome (s : FinancialState) (i : String) : FinancialState :=
  applyActions s (deleteIncomeTrace i).1

/-- State after running addExpense from state s. -/
def runAddExpense (s : FinancialState) (inp : CreateInput) (nowMs : Nat) (rand : String) :
    FinancialState :=
  applyActions s (addExpenseTrace inp nowMs rand).1

/-- State after running updateExpense from state s. -/
def runUpdateExpense (s : FinancialState) (inp : UpdateInput) (nowMs : Nat) : FinancialState :=
  applyActions s (updateExpenseTrace s inp nowMs).1

/-- State after running deleteExpense from state s. -/
def runDeleteExpense (s : FinancialState) (i : String) : FinancialState :=
  applyActions s (deleteExpenseTrace i).1

/-- State after running addGoal from state s. -/
def runAddGoal (s : FinancialState) (inp : CreateInput) (nowMs : Nat) (rand : String) :
    FinancialState :=
  applyActions s (addGoalTrace inp nowMs rand).1

/-- State after running updateGoal from state s. -/
def runUpdateGoal (s : FinancialState) (inp : UpdateInput) (nowMs : Nat) : FinancialState :=
  applyActions s (updateGoalTrace s inp nowMs).1

/-- State after running deleteGoal from state s. -/
def runDeleteGoal (s : FinancialState) (i : String) : FinancialState :=
  applyActions s (deleteGoalTrace i).1

/-- State after running saveUserPlan from state s with the given adapter
outcome. -/
def runSaveUserPlan (s : FinancialState) (res : Except String Plan) : FinancialState :=
  applyActions s (saveUserPlanTrace s res).1

/-- State after running the manual loadUserPlan from state s. -/
def runLoadUserPlan (s : FinancialState) (res : Except String (Option Plan)) :
    FinancialState :=
  applyActions s (loadUserPlanTrace res).1

/-- State after the auto-load effect runs from state s. -/
def runAutoLoad (s : FinancialState) (res : Except String (Option Plan)) : FinancialState :=
  applyActions s (autoLoadTrace s res).1

/-
Helper lemmas shared by the claim theorems.
-/

/-- Association-list lookup over an append falls through to the right list
when the key is absent on the left (JS spread: missing input keys read from
the existing entity). -/
theorem lookup_append_of_none {β : Type} (k : String) (l1 l2 : List (String × β))
    (h : l1.lookup k = none) : (l1 ++ l2).lookup k = l2.lookup k := by
  induction l1 with
  | nil => simp
  | cons p t ih =>
      rw [List.lookup] at h
      rw [List.cons_append, List.lookup]
      cases hk : (k == p.1) with
      | true => rw [hk] at h; exact absurd h (by simp)
      | false => rw [hk] at h; exact ih h

/-- A find? by id comes back empty when the id is not among the mapped ids. -/
theorem find?_by_id_eq_none (l : List Entity) (i : String)
    (h : i ∉ l.map Entity.id) :
    l.find? (fun e => e.id == i) = none := by
  rw [List.find?_eq_none]
  intro x hx
  simp only [beq_iff_eq]
  intro hxi
  exact h (hxi ▸ List.mem_map_of_mem Entity.id hx)

/-- Filtering out an id that no entity carries leaves the list unchanged. -/
theorem removeById_of_not_mem (l : List Entity) (i : String)
    (h : i ∉ l.map Entity.id) : removeById l i = l := by
  unfold removeById
  rw [List.filter_eq_self]
  intro e he
  simp only [bne_iff_ne, ne_eq]
  intro hei
  exact h (hei ▸ List.mem_map_of_mem Entity.id he)

/-
Claim theorems.
-/

/-- C4: the auto-save effect schedules a save exactly when all four
eligibility conditions hold — the Plan is not pristine, the global loading
flag is down, the saving flag is down, and there are unsaved changes; in
particular it never schedules while loading or saving, never on a pristine
Plan, and never without unsaved changes. -/
theorem autoSave_guard_iff (s : FinancialState) :
    shouldAutoSave s = true ↔
      (pristineB s = false ∧ s.loading.isLoading = false ∧
       s.loading.isSaving = false ∧ s.hasUnsavedChanges = true) := by
  simp only [shouldAutoSave, hasRealData, pristineB, Bool.and_eq_true, Bool.or_eq_true,
    Bool.not_eq_true', Bool.and_eq_false_iff, Bool.or_eq_false_iff, beq_eq_false_iff_ne,
    bne_iff_ne, ne_eq, beq_iff_eq, decide_eq_true_iff, Nat.pos_iff_ne_zero,
    Nat.beq_eq_true_eq]
  tauto

/-- C1 (counterexample): calling updateIncome with an absent id from the
fresh state does dispatch actions (the trace is non-empty) and does change
the state (the income error category is recorded), refuting "thrown before
any dispatch, and the state is unchanged" as stated. -/
theorem updateIncome_missing_id_dispatches_and_changes_state :
    (updateIncomeTrace freshInitialState ⟨"nonexistent-1", []⟩ 0).1 ≠ [] ∧
    runUpdateIncome freshInitialState ⟨"nonexistent-1", []⟩ 0 ≠ freshInitialState := by
  decide

/-- C1 (amended): for each update operation called with an id absent from the
matching sequence, the operation re-raises a NotFound failure thrown before
the entity-update dispatch, the Plan (hence every entity sequence) is
unchanged, the NotFound message is recorded in the matching error category,
and the domain loading flag ends down — though the loading-flag and error
dispatches themselves do run, so the full state is not unchanged. -/
theorem update_missing_id_rejects (s : FinancialState) (inp : UpdateInput) (nowMs : Nat)
    (hI : inp.id ∉ s.userPlan.income.map Entity.id)
    (hE : inp.id ∉ s.userPlan.expenses.map Entity.id)
    (hG : inp.id ∉ s.userPlan.goals.map Entity.id) :
    ((updateIncomeTrace s inp nowMs).2 = true ∧
      (runUpdateIncome s inp nowMs).userPlan = s.userPlan ∧
      (runUpdateIncome s inp nowMs).error.incomeError = some "Income not found" ∧
      (runUpdateIncome s inp nowMs).loading.isLoadingIncome = false) ∧
    ((updateExpenseTrace s inp nowMs).2 = true ∧
      (runUpdateExpense s inp nowMs).userPlan = s.userPlan ∧
      (runUpdateExpense s inp nowMs).error.expenseError = some "Expense not found" ∧
      (runUpdateExpense s inp nowMs).loading.isLoadingExpenses = false) ∧
    ((updateGoalTrace s inp nowMs).2 = true ∧
      (runUpdateGoal s inp nowMs).userPlan = s.userPlan ∧
      (runUpdateGoal s inp nowMs).error.goalError = some "Goal not found" ∧
      (runUpdateGoal s inp nowMs).loading.isLoadingGoals = false) := by
  have hfI := find?_by_id_eq_none s.userPlan.income inp.id hI
  have hfE := find?_by_id_eq_none s.userPlan.expenses inp.id hE
  have hfG := find?_by_id_eq_none s.userPlan.goals inp.id hG
  refine ⟨?_, ?_, ?_⟩ <;>
    simp [runUpdateIncome, runUpdateExpense, runUpdateGoal, updateIncomeTrace,
      updateExpenseTrace, updateGoalTrace, hfI, hfE, hfG, applyActions, applyAction,
      clearErrorState]

/-- C1 (witness): the amended theorem instantiated at the fresh state and a
concrete absent id. -/
theorem update_missing_id_rejects_witness :
    (updateIncomeTrace freshInitialState ⟨"ghost-1", []⟩ 3).2 = true ∧
    (runUpdateIncome freshInitialState ⟨"ghost-1", []⟩ 3).userPlan =
      freshInitialState.userPlan :=
  ⟨(update_missing_id_rejects freshInitialState ⟨"ghost-1", []⟩ 3
      (by decide) (by decide) (by decide)).1.1,
   (update_missing_id_rejects freshInitialState ⟨"ghost-1", []⟩ 3
      (by decide) (by decide) (by decide)).1.2.1⟩

/-- Pre-call state for the id-collision scenario: a plan (as a Storage
Adapter load may return it) already holding an income entry whose id equals
what generateId produces at epoch 5 with random suffix abcdefghi. -/
def collisionState : FinancialState :=
  { freshInitialState with
      userPlan := { freshInitialState.userPlan with
                      income := [⟨"income-5-abcdefghi", [], 0, 0⟩] } }

/-- C2 (counterexample): the generator performs no uniqueness check, so with
a valid 9-character base-36 random suffix the synthesized id can already be
present in the pre-call sequence, refuting "is not present in the pre-call
sequence" as an unconditional claim. -/
theorem addIncome_id_collision :
    ("abcdefghi".length = 9 ∧ "abcdefghi".data.all isBase36 = true) ∧
    (newEntity "income" ⟨[]⟩ 5 "abcdefghi").id ∈
      collisionState.userPlan.income.map Entity.id := by
  decide

/-- C2 (amended): every create operation synthesizes an entity whose id is
prefix-epochMillis-randomSuffix (the suffix being the 9 base-36 characters
the generator yields), with createdAt equal to updatedAt, appended to the
matching sequence; the id is absent from the pre-call sequence whenever the
generated id does not collide with an existing one (no uniqueness check is
performed, so freshness is a hypothesis, not a guarantee). -/
theorem add_creates_stamped_entity (s : FinancialState) (inp : CreateInput)
    (nowMs : Nat) (rand : String)
    (hlen : rand.length = 9) (hb : rand.data.all isBase36 = true)
    (hfI : generateId "income" nowMs rand ∉ s.userPlan.income.map Entity.id)
    (hfE : generateId "expense" nowMs rand ∉ s.userPlan.expenses.map Entity.id)
    (hfG : generateId "goal" nowMs rand ∉ s.userPlan.goals.map Entity.id) :
    (rand.length = 9 ∧ rand.data.all isBase36 = true) ∧
    ((newEntity "income" inp nowMs rand).id =
        "income" ++ "-" ++ toString nowMs ++ "-" ++ rand ∧
      (newEntity "income" inp nowMs rand).createdAt =
        (newEntity "income" inp nowMs rand).updatedAt ∧
      (newEntity "income" inp nowMs rand).id ∉ s.userPlan.income.map Entity.id ∧
      (runAddIncome s inp nowMs rand).userPlan.income =
        s.userPlan.income ++ [newEntity "income" inp nowMs rand]) ∧
    ((newEntity "expense" inp nowMs rand).id =
        "expense" ++ "-" ++ toString nowMs ++ "-" ++ rand ∧
      (newEntity "expense" inp nowMs rand).createdAt =
        (newEntity "expense" inp nowMs rand).updatedAt ∧
      (newEntity "expense" inp nowMs rand).id ∉ s.userPlan.expenses.map Entity.id ∧
      (runAddExpense s inp nowMs rand).userPlan.expenses =
        s.userPlan.expenses ++ [newEntity "expense" inp nowMs rand]) ∧
    ((newEntity "goal" inp nowMs rand).id =
        "goal" ++ "-" ++ toString nowMs ++ "-" ++ rand ∧
      (newEntity "goal" inp nowMs rand).createdAt =
        (newEntity "goal" inp nowMs rand).updatedAt ∧
      (newEntity "goal" inp nowMs rand).id ∉ s.userPlan.goals.map Entity.id ∧
      (runAddGoal s inp nowMs rand).userPlan.goals =
        s.userPlan.goals ++ [newEntity "goal" inp nowMs rand]) := by
  refine ⟨⟨hlen, hb⟩, ⟨rfl, rfl, hfI, ?_⟩, ⟨rfl, rfl, hfE, ?_⟩, ⟨rfl, rfl, hfG, ?_⟩⟩ <;>
    simp [runAddIncome, runAddExpense, runAddGoal, addIncomeTrace, addExpenseTrace,
      addGoalTrace, applyActions, applyAction]

/-- C2 (witness): the amended theorem instantiated at the fresh state, epoch
5 and suffix abcdefghi. -/
theorem add_creates_stamped_entity_witness :
    (newEntity "income" ⟨[]⟩ 5 "abcdefghi").createdAt =
      (newEntity "income" ⟨[]⟩ 5 "abcdefghi").updatedAt ∧
    (newEntity "income" ⟨[]⟩ 5 "abcdefghi").id ∉
      freshInitialState.userPlan.income.map Entity.id :=
  ⟨(add_creates_stamped_entity freshInitialState ⟨[]⟩ 5 "abcdefghi"
      (by decide) (by decide) (by decide) (by decide) (by decide)).2.1.2.1,
   (add_creates_stamped_entity freshInitialState ⟨[]⟩ 5 "abcdefghi"
      (by decide) (by decide) (by decide) (by decide) (by decide)).2.1.2.2.1⟩

/-- C3: on a rejected Storage Adapter save, saveUserPlan records the message
into generalError, re-raises, and leaves isSaving true (no cleanup on the
failure path); on success the Plan is replaced exactly when the returned id
differs from the current one, and the unsaved-changes flag is cleared. -/
theorem saveUserPlan_spec (s : FinancialState) (msg : String) (saved : Plan) :
    ((saveUserPlanTrace s (Except.error msg)).2 = true ∧
      (runSaveUserPlan s (Except.error msg)).error.generalError = some msg ∧
      (runSaveUserPlan s (Except.error msg)).loading.isSaving = true) ∧
    ((saveUserPlanTrace s (Except.ok saved)).2 = false ∧
      (saved.id = s.userPlan.id →
        (runSaveUserPlan s (Except.ok saved)).userPlan = s.userPlan) ∧
      (saved.id ≠ s.userPlan.id →
        (runSaveUserPlan s (Except.ok saved)).userPlan = saved) ∧
      (runSaveUserPlan s (Except.ok saved)).hasUnsavedChanges = false) := by
  constructor
  · exact ⟨rfl, by simp [runSaveUserPlan, saveUserPlanTrace, applyActions, applyAction,
      clearErrorState], rfl⟩
  · refine ⟨rfl, ?_, ?_, ?_⟩
    · intro h
      simp [runSaveUserPlan, saveUserPlanTrace, h, applyActions, applyAction, clearErrorState]
    · intro h
      simp [runSaveUserPlan, saveUserPlanTrace, h, applyActions, applyAction, clearErrorState]
    · by_cases h : saved.id = s.userPlan.id <;>
        simp [runSaveUserPlan, saveUserPlanTrace, h, applyActions, applyAction, clearErrorState]

/-- Plan with a storage-assigned identifier, as returned on a first save. -/
def savedPlanW : Plan :=
  { id := "plan-1", income := [], expenses := [], goals := [],
    currentBalance := 0, forecastConfig := [] }

/-- C3 (witness): the theorem instantiated at the fresh state, a concrete
failure message and a concrete returned plan with a changed id. -/
theorem saveUserPlan_spec_witness :
    (runSaveUserPlan freshInitialState (Except.error "disk full")).loading.isSaving = true ∧
    (runSaveUserPlan freshInitialState (Except.ok savedPlanW)).userPlan = savedPlanW :=
  ⟨(saveUserPlan_spec freshInitialState "disk full" savedPlanW).1.2.2,
   (saveUserPlan_spec freshInitialState "disk full" savedPlanW).2.2.2.1 (by decide)⟩

/-- Auxiliary form of the debounce property: over any run of re-evaluations
whose consecutive gaps stay under 1000ms and whose states are all eligible,
the fired saves are exactly the last scheduling (none when the run is
empty). -/
theorem autoSaveFired_eq_getLast? :
    ∀ evs : List (Nat × FinancialState), withinWindowB evs = true →
      evs.all (fun e => shouldAutoSave e.2) = true →
      autoSaveFired evs = evs.getLast?.toList := by
  intro evs
  induction evs with
  | nil => intro _ _; rfl
  | cons e rest ih =>
      intro hw he
      cases rest with
      | nil =>
          obtain ⟨t, s⟩ := e
          have hs : shouldAutoSave s = true := by simpa using he
          simp [autoSaveFired, hs]
      | cons e2 rest2 =>
          obtain ⟨t1, s1⟩ := e
          obtain ⟨t2, s2⟩ := e2
          rw [withinWindowB] at hw
          simp only [Bool.and_eq_true, decide_eq_true_iff] at hw
          have he1 : shouldAutoSave s1 = true := by
            simp only [List.all_cons, Bool.and_eq_true] at he
            exact he.1
          have he2 : ((t2, s2) :: rest2).all (fun e => shouldAutoSave e.2) = true := by
            simp only [List.all_cons, Bool.and_eq_true] at he ⊢
            exact he.2
          have ih' := ih hw.2 he2
          rw [autoSaveFired]
          simp only [he1, if_true, hw.1, ih', List.getLast?_cons_cons]
          simp

/-- C5: auto-save is debounced over a 1000ms window — for any non-empty run
of eligible re-evaluations each occurring within 1000ms of the previous one,
every re-evaluation cancels the previously scheduled timer, so exactly one
save fires, carrying the state as of the last mutation. -/
theorem autoSave_debounce (evs : List (Nat × FinancialState)) (h : evs ≠ [])
    (hw : withinWindowB evs = true)
    (he : evs.all (fun e => shouldAutoSave e.2) = true) :
    (autoSaveFired evs).length = 1 ∧ autoSaveFired evs = [evs.getLast h] := by
  have hmain := autoSaveFired_eq_getLast? evs hw he
  rw [List.getLast?_eq_getLast evs h] at hmain
  exact ⟨by rw [hmain]; rfl, by rw [hmain]; rfl⟩

/-- Eligible state used to instantiate the debounce theorem: a persisted plan
id with pending unsaved changes and no loading or saving in flight. -/
def autoSaveStateW : FinancialState :=
  { freshInitialState with
      userPlan := { freshInitialState.userPlan with id := "plan-1" }
      hasUnsavedChanges := true }

/-- C5 (witness): two eligible re-evaluations 500ms apart produce exactly the
single save scheduled by the second one. -/
theorem autoSave_debounce_witness :
    autoSaveFired [(0, autoSaveStateW), (500, autoSaveStateW)] =
      [(500, autoSaveStateW)] := by
  have h := (autoSave_debounce [(0, autoSaveStateW), (500, autoSaveStateW)]
    (by decide) (by decide) (by decide)).2
  simpa using h

/-- Entity replacement by id leaves every entity with a different id in the
sequence. -/
theorem mem_replaceById_of_ne (l : List Entity) (u : Entity) (e : Entity)
    (he : e ∈ l) (hne : e.id ≠ u.id) : e ∈ replaceById l u := by
  unfold replaceById
  have hkeep : (fun x => if x.id = u.id then u else x) e = e := by simp [hne]
  exact hkeep ▸ List.mem_map_of_mem _ he

/-- C6: the auto-load effect is a no-op unless the Plan is pristine; from a
pristine state it dispatches load-success on a present result, only clears
the loading flag on an absent result, and on failure dispatches a load-error
action without re-raising — whereas the manual loadUserPlan re-raises on the
same failure. -/
theorem autoLoad_spec (s s' : FinancialState) (p : Plan) (msg : String)
    (res : Except String (Option Plan))
    (hp : pristineB s = true) (hnp : pristineB s' = false) :
    autoLoadTrace s' res = ([], false) ∧
    ((runAutoLoad s (Except.ok (some p))).userPlan = p ∧
      Action.loadSuccess p ∈ (autoLoadTrace s (Except.ok (some p))).1 ∧
      (autoLoadTrace s (Except.ok (some p))).2 = false) ∧
    ((autoLoadTrace s (Except.ok none)).1 =
        [Action.setLoading true, Action.clearError (some ErrorCategory.generalError),
         Action.setLoading false] ∧
      (runAutoLoad s (Except.ok none)).loading.isLoading = false ∧
      (runAutoLoad s (Except.ok none)).userPlan = s.userPlan ∧
      (autoLoadTrace s (Except.ok none)).2 = false) ∧
    (Action.loadError msg ∈ (autoLoadTrace s (Except.error msg)).1 ∧
      (autoLoadTrace s (Except.error msg)).2 = false ∧
      (loadUserPlanTrace (Except.error msg)).2 = true) := by
  refine ⟨?_, ⟨?_, ?_, ?_⟩, ⟨?_, ?_, ?_, ?_⟩, ?_, ?_, ?_⟩ <;>
    simp [autoLoadTrace, loadUserPlanTrace, runAutoLoad, hp, hnp, applyActions,
      applyAction, clearErrorState]

/-- Plan as a Storage Adapter load may return it, used to instantiate the
auto-load theorem. -/
def loadedPlanW : Plan :=
  { id := "plan-7", income := [], expenses := [], goals := [],
    currentBalance := 42, forecastConfig := [] }

/-- C6 (witness): the theorem instantiated at the pristine fresh state, a
non-pristine state, a concrete loaded plan and a concrete failure message. -/
theorem autoLoad_spec_witness :
    (runAutoLoad freshInitialState (Except.ok (some loadedPlanW))).userPlan = loadedPlanW ∧
    autoLoadTrace autoSaveStateW (Except.ok none) = ([], false) ∧
    (autoLoadTrace freshInitialState (Except.error "boom")).2 = false :=
  ⟨(autoLoad_spec freshInitialState autoSaveStateW loadedPlanW "boom" (Except.ok none)
      (by decide) (by decide)).2.1.1,
   (autoLoad_spec freshInitialState autoSaveStateW loadedPlanW "boom" (Except.ok none)
      (by decide) (by decide)).1,
   (autoLoad_spec freshInitialState autoSaveStateW loadedPlanW "boom" (Except.ok none)
      (by decide) (by decide)).2.2.2.2.1⟩

/-- C7: updating an entity that exists restamps only updatedAt — the id and
createdAt are preserved, every domain field not supplied by the input reads
the same as before, updatedAt becomes the current instant (no earlier than
the prior value when the clock has not gone backwards), the sequence becomes
the by-id replacement, and entities with other ids remain in the sequence. -/
theorem update_existing_spec (s : FinancialState) (inp : UpdateInput) (nowMs : Nat)
    (exI exE exG : Entity)
    (hI : s.userPlan.income.find? (fun e => e.id == inp.id) = some exI)
    (hIt : exI.updatedAt ≤ nowMs)
    (hE : s.userPlan.expenses.find? (fun e => e.id == inp.id) = some exE)
    (hEt : exE.updatedAt ≤ nowMs)
    (hG : s.userPlan.goals.find? (fun e => e.id == inp.id) = some exG)
    (hGt : exG.updatedAt ≤ nowMs) :
    ((mergeEntity exI inp nowMs).id = exI.id ∧
      (mergeEntity exI inp nowMs).createdAt = exI.createdAt ∧
      (mergeEntity exI inp nowMs).updatedAt = nowMs ∧
      exI.updatedAt ≤ (mergeEntity exI inp nowMs).updatedAt ∧
      (∀ k, inp.fields.lookup k = none →
        getField (mergeEntity exI inp nowMs) k = getField exI k) ∧
      (runUpdateIncome s inp nowMs).userPlan.income =
        replaceById s.userPlan.income (mergeEntity exI inp nowMs) ∧
      (∀ e ∈ s.userPlan.income, e.id ≠ inp.id →
        e ∈ (runUpdateIncome s inp nowMs).userPlan.income)) ∧
    ((mergeEntity exE inp nowMs).id = exE.id ∧
      (mergeEntity exE inp nowMs).createdAt = exE.createdAt ∧
      (mergeEntity exE inp nowMs).updatedAt = nowMs ∧
      exE.updatedAt ≤ (mergeEntity exE inp nowMs).updatedAt ∧
      (∀ k, inp.fields.lookup k = none →
        getField (mergeEntity exE inp nowMs) k = getField exE k) ∧
      (runUpdateExpense s inp nowMs).userPlan.expenses =
        replaceById s.userPlan.expenses (mergeEntity exE inp nowMs) ∧
      (∀ e ∈ s.userPlan.expenses, e.id ≠ inp.id →
        e ∈ (runUpdateExpense s inp nowMs).userPlan.expenses)) ∧
    ((mergeEntity exG inp nowMs).id = exG.id ∧
      (mergeEntity exG inp nowMs).createdAt = exG.createdAt ∧
      (mergeEntity exG inp nowMs).updatedAt = nowMs ∧
      exG.updatedAt ≤ (mergeEntity exG inp nowMs).updatedAt ∧
      (∀ k, inp.fields.lookup k = none →
        getField (mergeEntity exG inp nowMs) k = getField exG k) ∧
      (runUpdateGoal s inp nowMs).userPlan.goals =
        replaceById s.userPlan.goals (mergeEntity exG inp nowMs) ∧
      (∀ e ∈ s.userPlan.goals, e.id ≠ inp.id →
        e ∈ (runUpdateGoal s inp nowMs).userPlan.goals)) := by
  have hidI : exI.id = inp.id := by simpa using List.find?_some hI
  have hidE : exE.id = inp.id := by simpa using List.find?_some hE
  have hidG : exG.id = inp.id := by simpa using List.find?_some hG
  have hseqI : (runUpdateIncome s inp nowMs).userPlan.income =
      replaceById s.userPlan.income (mergeEntity exI inp nowMs) := by
    simp [runUpdateIncome, updateIncomeTrace, hI, applyActions, applyAction]
  have hseqE : (runUpdateExpense s inp nowMs).userPlan.expenses =
      replaceById s.userPlan.expenses (mergeEntity exE inp nowMs) := by
    simp [runUpdateExpense, updateExpenseTrace, hE, applyActions, applyAction]
  have hseqG : (runUpdateGoal s inp nowMs).userPlan.goals =
      replaceById s.userPlan.goals (mergeEntity exG inp nowMs) := by
    simp [runUpdateGoal, updateGoalTrace, hG, applyActions, applyAction]
  refine ⟨⟨hidI ▸ rfl, rfl, rfl, hIt, ?_, hseqI, ?_⟩,
          ⟨hidE ▸ rfl, rfl, rfl, hEt, ?_, hseqE, ?_⟩,
          ⟨hidG ▸ rfl, rfl, rfl, hGt, ?_, hseqG, ?_⟩⟩
  · intro k hk
    exact lookup_append_of_none k inp.fields exI.fields hk
  · intro e he hne
    rw [hseqI]
    exact mem_replaceById_of_ne _ _ _ he hne
  · intro k hk
    exact lookup_append_of_none k inp.fields exE.fields hk
  · intro e he hne
    rw [hseqE]
    exact mem_replaceById_of_ne _ _ _ he hne
  · intro k hk
    exact lookup_append_of_none k inp.fields exG.fields hk
  · intro e he hne
    rw [hseqG]
    exact mem_replaceById_of_ne _ _ _ he hne

/-- Entity present in every sequence of the update-witness state. -/
def existingEntityW : Entity :=
  { id := "a", fields := [("amount", "100")], createdAt := 1, updatedAt := 1 }

/-- State holding existingEntityW in each of the three sequences. -/
def updateStateW : FinancialState :=
  { freshInitialState with
      userPlan := { freshInitialState.userPlan with
                      income := [existingEntityW],
                      expenses := [existingEntityW],
                      goals := [existingEntityW] } }

/-- C7 (witness): updating the concrete entity at instant 7 with a single
new field keeps createdAt and the untouched amount field, and moves
updatedAt forward. -/
theorem update_existing_spec_witness :
    (mergeEntity existingEntityW ⟨"a", [("note", "x")]⟩ 7).createdAt =
      existingEntityW.createdAt ∧
    getField (mergeEntity existingEntityW ⟨"a", [("note", "x")]⟩ 7) "amount" =
      getField existingEntityW "amount" ∧
    existingEntityW.updatedAt ≤
      (mergeEntity existingEntityW ⟨"a", [("note", "x")]⟩ 7).updatedAt :=
  ⟨(update_existing_spec updateStateW ⟨"a", [("note", "x")]⟩ 7
      existingEntityW existingEntityW existingEntityW
      (by decide) (by decide) (by decide) (by decide) (by decide) (by decide)).1.2.1,
   (update_existing_spec updateStateW ⟨"a", [("note", "x")]⟩ 7
      existingEntityW existingEntityW existingEntityW
      (by decide) (by decide) (by decide) (by decide) (by decide) (by decide)).1.2.2.2.2.1
      "amount" (by decide),
   (update_existing_spec updateStateW ⟨"a", [("note", "x")]⟩ 7
      existingEntityW existingEntityW existingEntityW
      (by decide) (by decide) (by decide) (by decide) (by decide) (by decide)).1.2.2.2.1⟩

/-- C8: each delete operation dispatches the removal action unconditionally
(it appears in the trace with no existence check and the operation never
re-raises), and when the id is absent from the sequence the downstream
removal leaves the sequence unchanged. -/
theorem delete_spec (s : FinancialState) (i : String)
    (hI : i ∉ s.userPlan.income.map Entity.id)
    (hE : i ∉ s.userPlan.expenses.map Entity.id)
    (hG : i ∉ s.userPlan.goals.map Entity.id) :
    (Action.deleteIncome i ∈ (deleteIncomeTrace i).1 ∧
      (deleteIncomeTrace i).2 = false ∧
      (runDeleteIncome s i).userPlan.income = s.userPlan.income) ∧
    (Action.deleteExpense i ∈ (deleteExpenseTrace i).1 ∧
      (deleteExpenseTrace i).2 = false ∧
      (runDeleteExpense s i).userPlan.expenses = s.userPlan.expenses) ∧
    (Action.deleteGoal i ∈ (deleteGoalTrace i).1 ∧
      (deleteGoalTrace i).2 = false ∧
      (runDeleteGoal s i).userPlan.goals = s.userPlan.goals) := by
  refine ⟨⟨by simp [deleteIncomeTrace], rfl, ?_⟩,
          ⟨by simp [deleteExpenseTrace], rfl, ?_⟩,
          ⟨by simp [deleteGoalTrace], rfl, ?_⟩⟩
  · simp [runDeleteIncome, deleteIncomeTrace, applyActions, applyAction,
      removeById_of_not_mem _ _ hI]
  · simp [runDeleteExpense, deleteExpenseTrace, applyActions, applyAction,
      removeById_of_not_mem _ _ hE]
  · simp [runDeleteGoal, deleteGoalTrace, applyActions, applyAction,
      removeById_of_not_mem _ _ hG]

/-- C8 (witness): deleting the absent id zombie-1 from the fresh state leaves
the income sequence unchanged. -/
theorem delete_spec_witness :
    (runDeleteIncome freshInitialState "zombie-1").userPlan.income =
      freshInitialState.userPlan.income ∧
    Action.deleteIncome "zombie-1" ∈ (deleteIncomeTrace "zombie-1").1 :=
  ⟨(delete_spec freshInitialState "zombie-1" (by decide) (by decide) (by decide)).1.2.2,
   (delete_spec freshInitialState "zombie-1" (by decide) (by decide) (by decide)).1.1⟩

/-- C9: every entity operation ends with its domain loading flag down on
every execution path — the adds and deletes on their single (always
successful) path, the updates on both the found and the NotFound path, all
through the finally-dispatched flag reset. -/
theorem ops_clear_domain_loading_flag (s : FinancialState) (inpC : CreateInput)
    (inpU : UpdateInput) (i : String) (nowMs : Nat) (rand : String) :
    (runAddIncome s inpC nowMs rand).loading.isLoadingIncome = false ∧
    (runUpdateIncome s inpU nowMs).loading.isLoadingIncome = false ∧
    (runDeleteIncome s i).loading.isLoadingIncome = false ∧
    (runAddExpense s inpC nowMs rand).loading.isLoadingExpenses = false ∧
    (runUpdateExpense s inpU nowMs).loading.isLoadingExpenses = false ∧
    (runDeleteExpense s i).loading.isLoadingExpenses = false ∧
    (runAddGoal s inpC nowMs rand).loading.isLoadingGoals = false ∧
    (runUpdateGoal s inpU nowMs).loading.isLoadingGoals = false ∧
    (runDeleteGoal s i).loading.isLoadingGoals = false := by
  refine ⟨?_, ?_, ?_, ?_, ?_, ?_, ?_, ?_, ?_⟩
  · simp [runAddIncome, addIncomeTrace, applyActions, applyAction]
  · cases hf : s.userPlan.income.find? (fun e => e.id == inpU.id) <;>
      simp [runUpdateIncome, updateIncomeTrace, hf, applyActions, applyAction]
  · simp [runDeleteIncome, deleteIncomeTrace, applyActions, applyAction]
  · simp [runAddExpense, addExpenseTrace, applyActions, applyAction]
  · cases hf : s.userPlan.expenses.find? (fun e => e.id == inpU.id) <;>
      simp [runUpdateExpense, updateExpenseTrace, hf, applyActions, applyAction]
  · simp [runDeleteExpense, deleteExpenseTrace, applyActions, applyAction]
  · simp [runAddGoal, addGoalTrace, applyActions, applyAction]
  · cases hf : s.userPlan.goals.find? (fun e => e.id == inpU.id) <;>
      simp [runUpdateGoal, updateGoalTrace, hf, applyActions, applyAction]
  · simp [runDeleteGoal, deleteGoalTrace, applyActions, applyAction]

/-- C10: the add and delete operations never re-raise (their catch branch is
unreachable because the reducer is total and dispatch never throws) and
never leave a domain error recorded: each clears its category up front and
nothing on the path sets it. -/
theorem add_delete_never_reject (s : FinancialState) (inpC : CreateInput)
    (i : String) (nowMs : Nat) (rand : String) :
    ((addIncomeTrace inpC nowMs rand).2 = false ∧
      (runAddIncome s inpC nowMs rand).error.incomeError = none) ∧
    ((deleteIncomeTrace i).2 = false ∧
      (runDeleteIncome s i).error.incomeError = none) ∧
    ((addExpenseTrace inpC nowMs rand).2 = false ∧
      (runAddExpense s inpC nowMs rand).error.expenseError = none) ∧
    ((deleteExpenseTrace i).2 = false ∧
      (runDeleteExpense s i).error.expenseError = none) ∧
    ((addGoalTrace inpC nowMs rand).2 = false ∧
      (runAddGoal s inpC nowMs rand).error.goalError = none) ∧
    ((deleteGoalTrace i).2 = false ∧
      (runDeleteGoal s i).error.goalError = none) := by
  refine ⟨⟨rfl, ?_⟩, ⟨rfl, ?_⟩, ⟨rfl, ?_⟩, ⟨rfl, ?_⟩, ⟨rfl, ?_⟩, ⟨rfl, ?_⟩⟩ <;>
    simp [runAddIncome, runDeleteIncome, runAddExpense, runDeleteExpense, runAddGoal,
      runDeleteGoal, addIncomeTrace, deleteIncomeTrace, addExpenseTrace,
      deleteExpenseTrace, addGoalTrace, deleteGoalTrace, applyActions, applyAction,
      clearErrorState]

end Planner
